import Mathlib

/-!
Shallow embedding of `ebird2spatialite` (src/src/main.rs): a streaming
filter-and-load pipeline over eBird observation records.  Third-party
collaborators (the chrono date parser, the wkt parser, the regex engine,
the geo crate's haversine distance, and the SQLite driver) are modelled
as explicit inputs: parsers as small executable functions over the
fragments the program actually uses, the distance function, the regex
matchers and the database's per-row insert / commit outcomes as
parameters of the run.
-/

/-- Calendar date, mirroring `chrono::NaiveDate` as used by the program
(year-month-day, compared lexicographically).  The program only builds
dates through `%Y-%m-%d` parsing; the embedding restricts years to
non-negative numerals, the only form the claims exercise. -/
structure NDate where
  year : Nat
  month : Nat
  day : Nat
deriving DecidableEq, Repr

/-- Strict lexicographic order on (year, month, day): the order chrono
gives `NaiveDate`. -/
def NDate.ltB (a b : NDate) : Bool :=
  Nat.blt a.year b.year ||
    (a.year == b.year &&
      (Nat.blt a.month b.month ||
        (a.month == b.month && Nat.blt a.day b.day)))

/-- Non-strict lexicographic order on dates. -/
def NDate.leB (a b : NDate) : Bool :=
  a.ltB b || a == b

/-- Gregorian leap-year rule, as `chrono` applies when validating a
parsed day-of-month. -/
def isLeapYear (y : Nat) : Bool :=
  y % 4 == 0 && (y % 100 != 0 || y % 400 == 0)

/-- Number of days in a month (0 for an invalid month number). -/
def daysInMonth (y : Nat) (m : Nat) : Nat :=
  match m with
  | 1 => 31
  | 2 => if isLeapYear y then 29 else 28
  | 3 => 31
  | 4 => 30
  | 5 => 31
  | 6 => 30
  | 7 => 31
  | 8 => 31
  | 9 => 30
  | 10 => 31
  | 11 => 30
  | 12 => 31
  | _ => 0

/-- Split a character list at every occurrence of `sep` (the pieces, in
order, separators dropped; an empty input gives one empty piece). -/
def splitOnChar (sep : Char) : List Char → List (List Char)
  | [] => [[]]
  | c :: cs =>
    match splitOnChar sep cs with
    | r :: rs => if c = sep then [] :: r :: rs else (c :: r) :: rs
    | [] => if c = sep then [[], []] else [[c]]

/-- Value of a non-empty all-digit character list, `none` otherwise. -/
def digitsVal? (cs : List Char) : Option Nat :=
  match cs with
  | [] => none
  | _ =>
    if cs.all (fun c => c.isDigit) then
      some (cs.foldl (fun n c => 10 * n + (c.toNat - 48)) 0)
    else
      none

/-- `NaiveDate::parse_from_str(text, "%Y-%m-%d")` on the numerals the
program meets: three dash-separated digit groups forming a valid
Gregorian calendar date (month 1..12, day within the month, leap years
respected).  Anything else fails, as in chrono. -/
def parseDate (s : String) : Option NDate :=
  match splitOnChar (Char.ofNat 45) s.data with
  | [ys, ms, ds] =>
    match digitsVal? ys, digitsVal? ms, digitsVal? ds with
    | some y, some m, some d =>
      if 1 ≤ m && m ≤ 12 && 1 ≤ d && Nat.ble d (daysInMonth y m) then
        some ⟨y, m, d⟩
      else
        none
    | _, _, _ => none
  | _ => none

/-- `str::parse::<f64>()` on plain decimal numerals, the fragment the
buffer flag uses: optional sign, then digits with an optional fractional
part.  Values are exact rationals; exponents and the infinity / NaN
spellings Rust also accepts are outside the fragment the claims touch. -/
def parseF64 (s : String) : Option ℚ :=
  let unsigned : List Char → Option ℚ := fun cs =>
    match splitOnChar (Char.ofNat 46) cs with
    | [w] => (digitsVal? w).map (fun n => (n : ℚ))
    | [w, f] =>
      if w.isEmpty && f.isEmpty then none
      else if w.all (fun c => c.isDigit) && f.all (fun c => c.isDigit) then
        some ((w.foldl (fun n c => 10 * n + (c.toNat - 48)) 0 : Nat) +
          (f.foldl (fun n c => 10 * n + (c.toNat - 48)) 0 : Nat) / ((10 : ℚ) ^ f.length))
      else none
    | _ => none
  match s.data with
  | [] => none
  | c :: cs =>
    if c = Char.ofNat 45 then (unsigned cs).map Neg.neg
    else if c = Char.ofNat 43 then unsigned cs
    else unsigned s.data

/-- `str::parse::<usize>()` on plain digit strings (the `--limit`
flag): digits valuing at most `usize::MAX`. -/
def parseUsize (s : String) : Option Nat :=
  match digitsVal? s.data with
  | some n => if Nat.ble n (2 ^ 64 - 1) then some n else none
  | none => none

/-- `usize::max_value()`: the limit used when `--limit` is absent. -/
def usizeMax : Nat := 2 ^ 64 - 1

/-- A planar point as the geo crate's `Point<f64>` (x = longitude,
y = latitude), coordinates as exact rationals. -/
structure GeoPoint where
  x : ℚ
  y : ℚ
deriving DecidableEq, Repr

/-- One decoded row of the eBird export: the `EBirdRecord` struct,
field for field (`f64` as ℚ, `i64` as ℤ, `Option` as `Option`). -/
structure EBirdRecord where
  guid : String
  common_name : String
  scientific_name : String
  observation_count : String
  breeding_bird_atlas_code : String
  breeding_bird_atlas_category : String
  age_sex : String
  latitude : ℚ
  longitude : ℚ
  obs_date : String
  time_obs_started : String
  obs_id : String
  sampling_event_id : String
  protocol_type : String
  duration_min : Option ℤ
  effort_distance_km : Option ℚ
  number_observers : Option ℤ
  all_species_reported : ℤ
  approved : ℤ
  species_comments : String
deriving DecidableEq, Repr

/-- A geometry as the geo crate's `Geometry` after WKT conversion, in
the shapes the claims exercise. -/
inductive Geometry where
  | point : ℚ → ℚ → Geometry
  | linestring : List (ℚ × ℚ) → Geometry
  | polygon : List (ℚ × ℚ) → Geometry
deriving DecidableEq, Repr

/-- One item of a parsed `wkt::Wkt`: either convertible to a geometry,
or one `wkt::conversion::try_into_geometry` rejects (e.g. an empty
point). -/
inductive WktItem where
  | geom : Geometry → WktItem
  | unconvertible : WktItem
deriving DecidableEq, Repr

/-- `wkt::conversion::try_into_geometry` on one item. -/
def tryIntoGeometry (it : WktItem) : Option Geometry :=
  match it with
  | .geom g => some g
  | .unconvertible => none

/-- `geo::Point::try_from(geometry)`: succeeds exactly on a point. -/
def pointTryFrom (g : Geometry) : Option GeoPoint :=
  match g with
  | .point x y => some ⟨x, y⟩
  | _ => none

/-- Compiled regex pattern, modelled by its `Regex::is_match` function
(the regex engine is a third-party collaborator). -/
def Matcher : Type := String → Bool

/-- The immutable filter configuration `main` builds before the stream
is consumed. -/
structure FilterConfig where
  beforeDate : Option NDate
  sinceDate : Option NDate
  near : Option GeoPoint
  buffer : ℚ
  commonNameMatch : Option Matcher
  scientificNameMatch : Option Matcher
  limit : Nat

/-- main.rs lines 189-201: parse `--before-date` when present; a parse
failure is returned as an error (fatal). -/
def compileBeforeDate (arg : Option String) : Except String (Option NDate) :=
  match arg with
  | some text =>
    match parseDate text with
    | some date => .ok (some date)
    | none => .error "input contains invalid characters"
  | none => .ok none

/-- main.rs lines 204-223: parse `--since-date` when present; a parse
failure is fatal, and when `--before-date` was also given the program
returns the error "Before date is after since date" exactly when the
before date is strictly greater than the since date (`before_date >
date` in the source). -/
def compileSinceDate (beforeDate : Option NDate) (arg : Option String) :
    Except String (Option NDate) :=
  match arg with
  | some text =>
    match parseDate text with
    | some date =>
      match beforeDate with
      | some b =>
        if date.ltB b then .error "Before date is after since date"
        else .ok (some date)
      | none => .ok (some date)
    | none => .error "input contains invalid characters"
  | none => .ok none

/-- main.rs lines 226-251: parse `--near-location` when present.  The
argument is the wkt crate's parse result (third-party): a parse error is
fatal; a parsed list whose length is not one is fatal; a single item
`try_into_geometry` rejects is fatal; otherwise the reference point is
`Point::try_from(geometry).ok()` — `none` when the geometry is not a
point. -/
def compileNear (arg : Option (Except String (List WktItem))) :
    Except String (Option GeoPoint) :=
  match arg with
  | some parsed =>
    match parsed with
    | .ok items =>
      match items with
      | [item] =>
        match tryIntoGeometry item with
        | some g => .ok (pointTryFrom g)
        | none => .error "Invalid near location geometry"
      | _ => .error "Multiple near locations are not supported"
    | .error e => .error e
  | none => .ok none

/-- main.rs lines 255-264: parse `--buffer` when present (any value the
float parser accepts is kept, fatal otherwise); default 1000 metres. -/
def compileBuffer (arg : Option String) : Except String ℚ :=
  match arg with
  | some text =>
    match parseF64 text with
    | some v => .ok v
    | none => .error "invalid float literal"
  | none => .ok 1000

/-- main.rs lines 267-288: compile an optional regex flag through the
third-party `Regex::new` (modelled as `regexCompile`); an invalid
pattern is fatal. -/
def compileNamePattern (regexCompile : String → Except String Matcher)
    (arg : Option String) : Except String (Option Matcher) :=
  match arg with
  | some text =>
    match regexCompile text with
    | .ok m => .ok (some m)
    | .error e => .error e
  | none => .ok none

/-- main.rs lines 290-298: parse `--limit` when present (fatal when it
is not a usize numeral); default `usize::max_value()`. -/
def compileLimit (arg : Option String) : Except String Nat :=
  match arg with
  | some text =>
    match parseUsize text with
    | some n => .ok n
    | none => .error "invalid digit found in string"
  | none => .ok usizeMax

/-- The command-line arguments, one optional string per flag. -/
structure Args where
  beforeDate : Option String
  sinceDate : Option String
  nearLocation : Option String
  buffer : Option String
  commonNameRegex : Option String
  scientificNameRegex : Option String
  limit : Option String

/-- main.rs lines 189-298 in source order: compile the whole filter
configuration, stopping at the first fatal error, before any input row
is consumed. -/
def compileConfig (wktParse : String → Except String (List WktItem))
    (regexCompile : String → Except String Matcher) (args : Args) :
    Except String FilterConfig := do
  let beforeDate ← compileBeforeDate args.beforeDate
  let sinceDate ← compileSinceDate beforeDate args.sinceDate
  let near ← compileNear (args.nearLocation.map wktParse)
  let buffer ← compileBuffer args.buffer
  let commonNameMatch ← compileNamePattern regexCompile args.commonNameRegex
  let scientificNameMatch ← compileNamePattern regexCompile args.scientificNameRegex
  let limit ← compileLimit args.limit
  pure ⟨beforeDate, sinceDate, near, buffer, commonNameMatch, scientificNameMatch, limit⟩

/-- main.rs lines 314-323: the before-date clause.  A record whose date
parses must be at or before the bound; a record whose date does not
parse passes; an absent bound passes everything. -/
def passBeforeDate (beforeDate : Option NDate) (r : EBirdRecord) : Bool :=
  match beforeDate with
  | some b =>
    match parseDate r.obs_date with
    | some other => other.leB b
    | none => true
  | none => true

/-- main.rs lines 324-333: the since-date clause, symmetric to the
before-date clause. -/
def passSinceDate (sinceDate : Option NDate) (r : EBirdRecord) : Bool :=
  match sinceDate with
  | some s =>
    match parseDate r.obs_date with
    | some other => s.leB other
    | none => true
  | none => true

/-- main.rs lines 334-341: the geospatial clause.  `dist` stands for the
geo crate's `haversine_distance` (third-party f64 trigonometry); the
record's point is built as `point!(x: longitude, y: latitude)` and kept
exactly when its distance from the reference point is strictly below the
buffer. -/
def passNear (dist : GeoPoint → GeoPoint → ℚ) (near : Option GeoPoint)
    (buffer : ℚ) (r : EBirdRecord) : Bool :=
  match near with
  | some p => decide (dist p ⟨r.longitude, r.latitude⟩ < buffer)
  | none => true

/-- main.rs lines 342-348: the common-name clause, `is_match` of the
compiled pattern. -/
def passCommonName (m : Option Matcher) (r : EBirdRecord) : Bool :=
  match m with
  | some f => f r.common_name
  | none => true

/-- main.rs lines 349-355: the scientific-name clause. -/
def passScientificName (m : Option Matcher) (r : EBirdRecord) : Bool :=
  match m with
  | some f => f r.scientific_name
  | none => true

/-- main.rs lines 304-313: `.deserialize().take(limit).filter_map(..)` —
the first `limit` per-row decode attempts, failures dropped silently.
`decode` stands for the csv/serde row decoder (third-party), one
attempt per raw row. -/
def decodedRows {Row : Type} (decode : Row → Option EBirdRecord)
    (limit : Nat) (rows : List Row) : List EBirdRecord :=
  (rows.take limit).filterMap decode

/-- main.rs lines 304-355: the decoded stream put through the five
filter clauses in source order. -/
def survivors (dist : GeoPoint → GeoPoint → ℚ) {Row : Type}
    (decode : Row → Option EBirdRecord) (cfg : FilterConfig)
    (rows : List Row) : List EBirdRecord :=
  ((((decodedRows decode cfg.limit rows).filter
      (passBeforeDate cfg.beforeDate)).filter
      (passSinceDate cfg.sinceDate)).filter
      (passNear dist cfg.near cfg.buffer)).filter
      (passCommonName cfg.commonNameMatch) |>.filter
      (passScientificName cfg.scientificNameMatch)

/-- Outcome of one whole run of `main` after the input file opened:
what `main` returns, the rows actually persisted, and what was printed
to standard output on the way. -/
structure RunResult where
  exit : Except String Unit
  inserted : List EBirdRecord
  logs : List String

/-- The run's external collaborators, fixed for the whole run: the wkt
parser and regex engine, the csv/serde row decoder, the haversine
distance, whether opening the input file succeeds, and the database's
behaviour (which inserts succeed, whether the final commit succeeds).
Schema initialization and opening the connection are `unwrap`ed in the
source (a failure panics before the model's scope) and are taken as
succeeded. -/
structure RunDeps (Row : Type) where
  wktParse : String → Except String (List WktItem)
  regexCompile : String → Except String Matcher
  decode : Row → Option EBirdRecord
  dist : GeoPoint → GeoPoint → ℚ
  inputOpen : Except String Unit
  insertOk : EBirdRecord → Bool
  commitOk : Bool

/-- main.rs lines 356-360: the insert loop's log lines, one per
surviving record whose insert fails. -/
def insertFailureLogs (insertOk : EBirdRecord → Bool)
    (recs : List EBirdRecord) : List String :=
  (recs.filter (fun r => !insertOk r)).map (fun _ => "could not insert record")

/-- main.rs lines 361-363: the commit step's log line, present exactly
when the commit fails. -/
def commitLogs (commitOk : Bool) : List String :=
  if commitOk then [] else ["error on commit transaction"]

/-- main.rs lines 130-366, `fn main`: open the input (line 183, `?` on
failure), compile the filter configuration (fatal on the first invalid
flag, before any row is consumed), then stream the rows through the
filters, insert each survivor (a failed insert is logged and skipped),
commit once (a failed commit is logged), and return `Ok(())`. -/
def ebirdMain {Row : Type} (ext : RunDeps Row) (args : Args)
    (rows : List Row) : RunResult :=
  match ext.inputOpen with
  | .error e => ⟨.error e, [], []⟩
  | .ok _ =>
    match compileConfig ext.wktParse ext.regexCompile args with
    | .error e => ⟨.error e, [], []⟩
    | .ok cfg =>
      let recs := survivors ext.dist ext.decode cfg rows
      ⟨.ok (), recs.filter (fun r => ext.insertOk r),
        insertFailureLogs ext.insertOk recs ++ commitLogs ext.commitOk⟩

/-- A stub WKT parser for runs that pass no `--near-location` flag. -/
def noWkt : String → Except String (List WktItem) := fun _ => .error "no wkt input"

/-- A stub regex engine for runs that pass no pattern flag. -/
def noRegex : String → Except String Matcher := fun _ => .error "no pattern input"

/-- A concrete distance function for witnesses (the geospatial clause is
proved for every distance function). -/
def zeroDist : GeoPoint → GeoPoint → ℚ := fun _ _ => 0

/-- A concrete row decoder for witnesses: the raw row already is the
decode outcome. -/
def idDecode : Option EBirdRecord → Option EBirdRecord := fun r => r

/-- A run with every flag absent. -/
def argsNone : Args := ⟨none, none, none, none, none, none, none⟩

/-- The configuration `compileConfig` builds from `argsNone`. -/
def defaultCfg : FilterConfig := ⟨none, none, none, 1000, none, none, usizeMax⟩

/-- A concrete observation record (observation date 2020-05-05). -/
def sampleRecord : EBirdRecord :=
  { guid := "g1"
    common_name := "American Crow"
    scientific_name := "Corvus brachyrhynchos"
    observation_count := "3"
    breeding_bird_atlas_code := ""
    breeding_bird_atlas_category := ""
    age_sex := ""
    latitude := 38
    longitude := -122
    obs_date := "2020-05-05"
    time_obs_started := "08:00:00"
    obs_id := "obsr1"
    sampling_event_id := "S1"
    protocol_type := "Traveling"
    duration_min := some 60
    effort_distance_km := some 1
    number_observers := some 2
    all_species_reported := 1
    approved := 1
    species_comments := "" }

/-- A second record, dated 2019-01-15. -/
def sampleRecord2 : EBirdRecord :=
  { sampleRecord with
    guid := "g2"
    common_name := "Common Raven"
    scientific_name := "Corvus corax"
    obs_date := "2019-01-15" }

/-- A record whose observation date does not parse. -/
def sampleRecordBadDate : EBirdRecord :=
  { sampleRecord with guid := "g3", obs_date := "unknown" }

/-- A record surviving the filter passes every clause of its
configuration (the compound filter is the AND of the five clauses
main.rs lines 314-355 apply in order). -/
theorem mem_survivors_pass (dist : GeoPoint → GeoPoint → ℚ) {Row : Type}
    (decode : Row → Option EBirdRecord) (cfg : FilterConfig)
    (rows : List Row) (r : EBirdRecord)
    (hr : r ∈ survivors dist decode cfg rows) :
    passBeforeDate cfg.beforeDate r = true
  ∧ passSinceDate cfg.sinceDate r = true
  ∧ passNear dist cfg.near cfg.buffer r = true
  ∧ passCommonName cfg.commonNameMatch r = true
  ∧ passScientificName cfg.scientificNameMatch r = true := by
  unfold survivors at hr
  have h5 := List.mem_filter.mp hr
  have h4 := List.mem_filter.mp h5.1
  have h3 := List.mem_filter.mp h4.1
  have h2 := List.mem_filter.mp h3.1
  have h1 := List.mem_filter.mp h2.1
  exact ⟨h1.2, h2.2, h3.2, h4.2, h5.2⟩

/-- The before-date clause on a record whose date parses compares the
parsed date against the bound. -/
theorem passBeforeDate_parsed (b o : NDate) (r : EBirdRecord)
    (hp : parseDate r.obs_date = some o) :
    passBeforeDate (some b) r = o.leB b := by
  unfold passBeforeDate
  rw [hp]

/-- The since-date clause on a record whose date parses compares the
bound against the parsed date. -/
theorem passSinceDate_parsed (s o : NDate) (r : EBirdRecord)
    (hp : parseDate r.obs_date = some o) :
    passSinceDate (some s) r = s.leB o := by
  unfold passSinceDate
  rw [hp]

/-- Both date clauses pass a record whose date does not parse. -/
theorem passDate_unparsed (b s : NDate) (r : EBirdRecord)
    (hp : parseDate r.obs_date = none) :
    passBeforeDate (some b) r = true ∧ passSinceDate (some s) r = true := by
  unfold passBeforeDate passSinceDate
  rw [hp]
  exact ⟨rfl, rfl⟩

/-- A WKT parser whose only answer is one linestring, standing for a
parse of a linestring literal such as "LINESTRING(0 0, 1 1)". -/
def lineWkt : String → Except String (List WktItem) :=
  fun _ => .ok [WktItem.geom (Geometry.linestring [(0, 0), (1, 1)])]

/-- Claim C1: the spec requires compilation to fail fatally when the
since bound is strictly after the before bound and to succeed when
since ≤ before.  The source's comparison is reversed (`before_date >
date`, main.rs line 208), so the code does the opposite: a well-ordered
pair (since 2020-01-01 ≤ before 2020-12-31) is rejected with the
bounds-reversed error, while genuinely reversed bounds (since
2020-12-31 after before 2020-01-01) compile successfully. -/
theorem c1_bounds_check_is_reversed :
    compileSinceDate (some ⟨2020, 12, 31⟩) (some "2020-01-01") =
      Except.error "Before date is after since date"
  ∧ compileSinceDate (some ⟨2020, 1, 1⟩) (some "2020-12-31") =
      Except.ok (some ⟨2020, 12, 31⟩)
  ∧ compileConfig noWkt noRegex
      { argsNone with beforeDate := some "2020-12-31", sinceDate := some "2020-01-01" } =
      Except.error "Before date is after since date" :=
  ⟨rfl, rfl, rfl⟩

/-- Claim C2 (counterexample): a `--near-location` whose well-known
text parses to exactly one linestring does NOT fail predicate
compilation: the whole configuration compiles, with no reference point
(`Point::try_from(..).ok()` silently turns the non-point into `None`,
main.rs line 231). -/
theorem c2_single_nonpoint_not_fatal :
    compileNear (some (Except.ok [WktItem.geom (Geometry.linestring [(0, 0), (1, 1)])])) =
      Except.ok none
  ∧ compileConfig lineWkt noRegex { argsNone with nearLocation := some "LINESTRING(0 0, 1 1)" } =
      Except.ok defaultCfg :=
  ⟨rfl, rfl⟩

/-- Claim C2 (amended): parsing `--near-location` fails fatally when
the text encodes zero or more than one geometry, or when its single
item cannot be converted to a geometry, or when the WKT text does not
parse; but a single convertible non-point geometry (linestring,
polygon) is accepted and merely yields no reference point, silently
disabling the geospatial clause; a single point yields that point. -/
theorem c2_amended_near_compilation :
    (∀ ps : List (ℚ × ℚ),
      compileNear (some (Except.ok [WktItem.geom (Geometry.linestring ps)])) = Except.ok none)
  ∧ (∀ ps : List (ℚ × ℚ),
      compileNear (some (Except.ok [WktItem.geom (Geometry.polygon ps)])) = Except.ok none)
  ∧ (∀ x y : ℚ,
      compileNear (some (Except.ok [WktItem.geom (Geometry.point x y)])) =
        Except.ok (some ⟨x, y⟩))
  ∧ compileNear (some (Except.ok [WktItem.unconvertible])) =
      Except.error "Invalid near location geometry"
  ∧ (∀ items : List WktItem, items.length ≠ 1 →
      compileNear (some (Except.ok items)) =
        Except.error "Multiple near locations are not supported")
  ∧ (∀ e : String, compileNear (some (Except.error e)) = Except.error e)
  ∧ compileNear none = Except.ok none := by
  refine ⟨fun ps => rfl, fun ps => rfl, fun x y => rfl, rfl, ?_, fun e => rfl, rfl⟩
  intro items h
  match items with
  | [] => rfl
  | [a] => exact absurd rfl h
  | a :: b :: t => rfl

/-- Claim C4 (counterexample): `--buffer -5` is NOT rejected: the value
parses as an f64 and compilation accepts the non-positive radius. -/
theorem c4_nonpositive_buffer_accepted :
    compileBuffer (some "-5") = Except.ok (-5)
  ∧ ((-5 : ℚ) ≤ 0)
  ∧ compileConfig noWkt noRegex { argsNone with buffer := some "-5" } =
      Except.ok { defaultCfg with buffer := -5 } :=
  ⟨rfl, by norm_num, rfl⟩

/-- Claim C4 (amended): `--buffer` is parsed as a real number; a
malformed value is fatal, but any value the float parser accepts —
non-positive included — is kept; when the flag is absent the radius
defaults to 1000 metres (whether or not `--near-location` is given). -/
theorem c4_amended_buffer_validation :
    compileBuffer none = Except.ok 1000
  ∧ (∀ s v, parseF64 s = some v → compileBuffer (some s) = Except.ok v)
  ∧ (∀ s, parseF64 s = none →
      compileBuffer (some s) = Except.error "invalid float literal") := by
  refine ⟨rfl, ?_, ?_⟩
  · intro s v h
    show (match parseF64 s with
      | some w => Except.ok w
      | none => Except.error "invalid float literal") = Except.ok v
    rw [h]
  · intro s h
    show (match parseF64 s with
      | some w => Except.ok w
      | none => Except.error "invalid float literal") =
        Except.error "invalid float literal"
    rw [h]

/-- Claim C3: once the input opened and the filter configuration
compiled, `main` returns success whatever the commit outcome; a failed
commit only leaves its log line. -/
theorem c3_commit_failure_not_fatal {Row : Type} (ext : RunDeps Row)
    (args : Args) (rows : List Row) (cfg : FilterConfig)
    (hopen : ext.inputOpen = Except.ok ())
    (hc : compileConfig ext.wktParse ext.regexCompile args = Except.ok cfg) :
    (ebirdMain ext args rows).exit = Except.ok ()
  ∧ (ext.commitOk = false →
      "error on commit transaction" ∈ (ebirdMain ext args rows).logs) := by
  have hm : ebirdMain ext args rows =
      ⟨Except.ok (),
        (survivors ext.dist ext.decode cfg rows).filter (fun r => ext.insertOk r),
        insertFailureLogs ext.insertOk (survivors ext.dist ext.decode cfg rows) ++
          commitLogs ext.commitOk⟩ := by
    unfold ebirdMain
    rw [hopen, hc]
  rw [hm]
  refine ⟨rfl, fun h => ?_⟩
  apply List.mem_append_right
  rw [h]
  exact List.mem_singleton.mpr rfl

/-- Run dependencies for a run over pre-decoded rows whose final commit
fails; every insert succeeds. -/
def depsCommitFail : RunDeps (Option EBirdRecord) :=
  ⟨noWkt, noRegex, idDecode, zeroDist, .ok (), fun _ => true, false⟩

/-- Witness for C3: a flagless run over one row with a failing commit
still exits successfully and logs the commit failure. -/
theorem c3_commit_failure_not_fatal_witness :
    (ebirdMain depsCommitFail argsNone [some sampleRecord]).exit = Except.ok ()
  ∧ (depsCommitFail.commitOk = false →
      "error on commit transaction" ∈
        (ebirdMain depsCommitFail argsNone [some sampleRecord]).logs) :=
  c3_commit_failure_not_fatal depsCommitFail argsNone [some sampleRecord] defaultCfg rfl rfl

/-- Claim C5: the record-count limit truncates the decode stream before
filtering: with a prefix of exactly `limit` raw rows, the decoded
records considered are exactly those of the prefix, and any rows after
the prefix change nothing — they are never decoded, filtered or kept. -/
theorem c5_limit_truncates_before_filtering (dist : GeoPoint → GeoPoint → ℚ)
    {Row : Type} (decode : Row → Option EBirdRecord) (cfg : FilterConfig)
    (xs ys : List Row) (h : xs.length = cfg.limit) :
    decodedRows decode cfg.limit (xs ++ ys) = xs.filterMap decode
  ∧ survivors dist decode cfg (xs ++ ys) = survivors dist decode cfg xs := by
  have ht : (xs ++ ys).take cfg.limit = xs := by
    rw [← h]
    exact List.take_left xs ys
  have hx : xs.take cfg.limit = xs := by
    rw [← h]
    exact List.take_length xs
  constructor
  · unfold decodedRows
    rw [ht]
  · unfold survivors decodedRows
    rw [ht, hx]

/-- The configuration of a `--limit 1` run. -/
def cfgLimitOne : FilterConfig := ⟨none, none, none, 1000, none, none, 1⟩

/-- Four decodable raw rows beyond the limit of a `--limit 1` run. -/
def rowsBeyondLimit : List (Option EBirdRecord) :=
  [some sampleRecord2, some sampleRecordBadDate, some sampleRecord2, some sampleRecord]

/-- Witness for C5: with `--limit 1` and four further decodable rows,
only the first row is considered and the outcome equals that of the
one-row stream. -/
theorem c5_limit_witness :
    ([some sampleRecord] : List (Option EBirdRecord)).length = cfgLimitOne.limit
  ∧ (decodedRows idDecode cfgLimitOne.limit ([some sampleRecord] ++ rowsBeyondLimit) =
      [some sampleRecord].filterMap idDecode
  ∧ survivors zeroDist idDecode cfgLimitOne ([some sampleRecord] ++ rowsBeyondLimit) =
      survivors zeroDist idDecode cfgLimitOne [some sampleRecord]) :=
  ⟨rfl, c5_limit_truncates_before_filtering zeroDist idDecode cfgLimitOne
    [some sampleRecord] rowsBeyondLimit rfl⟩

/-- Claim C6: a record surviving the filter satisfies both date bounds
on its parsed observation date; a record whose date does not parse
passes both date clauses, and an absent bound passes every record. -/
theorem c6_date_bounds_respected (dist : GeoPoint → GeoPoint → ℚ)
    {Row : Type} (decode : Row → Option EBirdRecord) (cfg : FilterConfig)
    (rows : List Row) (r : EBirdRecord)
    (hr : r ∈ survivors dist decode cfg rows) :
    (∀ b, cfg.beforeDate = some b →
      ∀ o, parseDate r.obs_date = some o → o.leB b = true)
  ∧ (∀ s, cfg.sinceDate = some s →
      ∀ o, parseDate r.obs_date = some o → s.leB o = true)
  ∧ (∀ (q : EBirdRecord) (b s : NDate), parseDate q.obs_date = none →
      passBeforeDate (some b) q = true ∧ passSinceDate (some s) q = true)
  ∧ (∀ q : EBirdRecord,
      passBeforeDate none q = true ∧ passSinceDate none q = true) := by
  obtain ⟨hb, hs, -, -, -⟩ := mem_survivors_pass dist decode cfg rows r hr
  refine ⟨?_, ?_, fun q b s hq => passDate_unparsed b s q hq, fun q => ⟨rfl, rfl⟩⟩
  · intro b hbd o ho
    rw [hbd] at hb
    rw [passBeforeDate_parsed b o r ho] at hb
    exact hb
  · intro s hsd o ho
    rw [hsd] at hs
    rw [passSinceDate_parsed s o r ho] at hs
    exact hs

/-- Configuration of a run with `--since-date 2020-01-01` and
`--before-date 2021-01-01` (both bounds set, nothing else). -/
def cfgDates : FilterConfig :=
  ⟨some ⟨2021, 1, 1⟩, some ⟨2020, 1, 1⟩, none, 1000, none, none, usizeMax⟩

/-- Three decodable rows: one dated 2019 (excluded by the since bound),
one dated 2020-05-05, one with an unparseable date. -/
def rowsDates : List (Option EBirdRecord) :=
  [some sampleRecord2, some sampleRecord, some sampleRecordBadDate]

/-- Witness for C6: the in-range record survives the two-bound run and
its parsed date satisfies both bounds. -/
theorem c6_date_bounds_witness :
    sampleRecord ∈ survivors zeroDist idDecode cfgDates rowsDates
  ∧ ((∀ b, cfgDates.beforeDate = some b →
      ∀ o, parseDate sampleRecord.obs_date = some o → o.leB b = true)
  ∧ (∀ s, cfgDates.sinceDate = some s →
      ∀ o, parseDate sampleRecord.obs_date = some o → s.leB o = true)
  ∧ (∀ (q : EBirdRecord) (b s : NDate), parseDate q.obs_date = none →
      passBeforeDate (some b) q = true ∧ passSinceDate (some s) q = true)
  ∧ (∀ q : EBirdRecord,
      passBeforeDate none q = true ∧ passSinceDate none q = true)) :=
  ⟨by decide,
    c6_date_bounds_respected zeroDist idDecode cfgDates rowsDates sampleRecord (by decide)⟩

/-- Claim C7: when a reference point is configured, every record
surviving the filter lies at distance strictly below the buffer radius
from it — for any distance function, in particular the geo crate's
haversine distance the program instantiates; a record at distance
exactly the radius or beyond fails the clause and is excluded. -/
theorem c7_near_clause_strict (dist : GeoPoint → GeoPoint → ℚ)
    {Row : Type} (decode : Row → Option EBirdRecord) (cfg : FilterConfig)
    (rows : List Row) (r : EBirdRecord) (p : GeoPoint)
    (hp : cfg.near = some p)
    (hr : r ∈ survivors dist decode cfg rows) :
    dist p ⟨r.longitude, r.latitude⟩ < cfg.buffer := by
  obtain ⟨-, -, hn, -, -⟩ := mem_survivors_pass dist decode cfg rows r hr
  rw [hp] at hn
  unfold passNear at hn
  exact of_decide_eq_true hn

/-- Configuration of a run with a reference point and the default
1000 m buffer. -/
def cfgNear : FilterConfig :=
  ⟨none, none, some ⟨0, 0⟩, 1000, none, none, usizeMax⟩

/-- Witness for C7: under the zero distance function the sample record
survives the near-filtered run and sits strictly inside the buffer. -/
theorem c7_near_clause_witness :
    cfgNear.near = some ⟨0, 0⟩
  ∧ sampleRecord ∈ survivors zeroDist idDecode cfgNear [some sampleRecord]
  ∧ zeroDist ⟨0, 0⟩ ⟨sampleRecord.longitude, sampleRecord.latitude⟩ < cfgNear.buffer :=
  ⟨rfl, by decide,
    c7_near_clause_strict zeroDist idDecode cfgNear [some sampleRecord]
      sampleRecord ⟨0, 0⟩ rfl (by decide)⟩

/-- Claim C8: a record surviving the filter is matched by the compiled
common-name pattern when one is configured, and by the compiled
scientific-name pattern when one is configured (a pattern is modelled
by its unanchored `is_match` function). -/
theorem c8_name_patterns_match (dist : GeoPoint → GeoPoint → ℚ)
    {Row : Type} (decode : Row → Option EBirdRecord) (cfg : FilterConfig)
    (rows : List Row) (r : EBirdRecord)
    (hr : r ∈ survivors dist decode cfg rows) :
    (∀ f, cfg.commonNameMatch = some f → f r.common_name = true)
  ∧ (∀ f, cfg.scientificNameMatch = some f → f r.scientific_name = true) := by
  obtain ⟨-, -, -, hcn, hsn⟩ := mem_survivors_pass dist decode cfg rows r hr
  constructor
  · intro f hf
    rw [hf] at hcn
    exact hcn
  · intro f hf
    rw [hf] at hsn
    exact hsn

/-- A matcher standing for a compiled common-name pattern. -/
def crowMatch : Matcher := fun s => s == "American Crow"

/-- A matcher standing for a compiled scientific-name pattern. -/
def corvusMatch : Matcher := fun s => s == "Corvus brachyrhynchos"

/-- Configuration of a run with both name patterns set. -/
def cfgPatterns : FilterConfig :=
  ⟨none, none, none, 1000, some crowMatch, some corvusMatch, usizeMax⟩

/-- Witness for C8: the crow record survives the pattern-filtered run
(the raven is excluded) and both patterns match it. -/
theorem c8_name_patterns_witness :
    sampleRecord ∈ survivors zeroDist idDecode cfgPatterns [some sampleRecord, some sampleRecord2]
  ∧ ((∀ f, cfgPatterns.commonNameMatch = some f → f sampleRecord.common_name = true)
  ∧ (∀ f, cfgPatterns.scientificNameMatch = some f → f sampleRecord.scientific_name = true)) :=
  ⟨by decide,
    c8_name_patterns_match zeroDist idDecode cfgPatterns
      [some sampleRecord, some sampleRecord2] sampleRecord (by decide)⟩

/-- Claim C9: a raw row that fails to decode is dropped silently: the
pipeline's output over a stream containing the bad row equals the
output over the stream without it (within the record-count limit), and
the run still completes successfully with the same inserted rows. -/
theorem c9_undecodable_row_dropped {Row : Type} (ext : RunDeps Row)
    (args : Args) (cfg : FilterConfig) (xs ys : List Row) (b : Row)
    (hb : ext.decode b = none)
    (hlen : (xs ++ b :: ys).length ≤ cfg.limit)
    (hopen : ext.inputOpen = Except.ok ())
    (hc : compileConfig ext.wktParse ext.regexCompile args = Except.ok cfg) :
    survivors ext.dist ext.decode cfg (xs ++ b :: ys) =
      survivors ext.dist ext.decode cfg (xs ++ ys)
  ∧ (ebirdMain ext args (xs ++ b :: ys)).exit = Except.ok ()
  ∧ (ebirdMain ext args (xs ++ b :: ys)).inserted =
      (ebirdMain ext args (xs ++ ys)).inserted := by
  have hlen2 : (xs ++ ys).length ≤ cfg.limit := by
    rw [List.length_append] at hlen ⊢
    rw [List.length_cons] at hlen
    omega
  have hdec : decodedRows ext.decode cfg.limit (xs ++ b :: ys) =
      decodedRows ext.decode cfg.limit (xs ++ ys) := by
    unfold decodedRows
    rw [List.take_of_length_le hlen, List.take_of_length_le hlen2,
      List.filterMap_append, List.filterMap_append, List.filterMap_cons, hb]
  have hsurv : survivors ext.dist ext.decode cfg (xs ++ b :: ys) =
      survivors ext.dist ext.decode cfg (xs ++ ys) := by
    unfold survivors
    rw [hdec]
  have hm1 : ebirdMain ext args (xs ++ b :: ys) =
      ⟨Except.ok (),
        (survivors ext.dist ext.decode cfg (xs ++ b :: ys)).filter (fun r => ext.insertOk r),
        insertFailureLogs ext.insertOk (survivors ext.dist ext.decode cfg (xs ++ b :: ys)) ++
          commitLogs ext.commitOk⟩ := by
    unfold ebirdMain
    rw [hopen, hc]
  have hm2 : ebirdMain ext args (xs ++ ys) =
      ⟨Except.ok (),
        (survivors ext.dist ext.decode cfg (xs ++ ys)).filter (fun r => ext.insertOk r),
        insertFailureLogs ext.insertOk (survivors ext.dist ext.decode cfg (xs ++ ys)) ++
          commitLogs ext.commitOk⟩ := by
    unfold ebirdMain
    rw [hopen, hc]
  refine ⟨hsurv, ?_, ?_⟩
  · rw [hm1]
  · rw [hm1, hm2]
    simp only [hsurv]

/-- Run dependencies over pre-decoded rows where everything external
succeeds. -/
def depsPlain : RunDeps (Option EBirdRecord) :=
  ⟨noWkt, noRegex, idDecode, zeroDist, .ok (), fun _ => true, true⟩

/-- Witness for C9: a flagless run over two decodable rows with an
undecodable row between them behaves exactly like the run without it
and exits successfully. -/
theorem c9_undecodable_row_witness :
    depsPlain.decode none = none
  ∧ ([some sampleRecord] ++ none :: [some sampleRecord2]).length ≤ defaultCfg.limit
  ∧ (survivors depsPlain.dist depsPlain.decode defaultCfg
        ([some sampleRecord] ++ none :: [some sampleRecord2]) =
      survivors depsPlain.dist depsPlain.decode defaultCfg
        ([some sampleRecord] ++ [some sampleRecord2])
  ∧ (ebirdMain depsPlain argsNone ([some sampleRecord] ++ none :: [some sampleRecord2])).exit =
      Except.ok ()
  ∧ (ebirdMain depsPlain argsNone ([some sampleRecord] ++ none :: [some sampleRecord2])).inserted =
      (ebirdMain depsPlain argsNone ([some sampleRecord] ++ [some sampleRecord2])).inserted) :=
  ⟨rfl, by decide,
    c9_undecodable_row_dropped depsPlain argsNone defaultCfg
      [some sampleRecord] [some sampleRecord2] none rfl (by decide) rfl rfl⟩

/-- Claim C10: once the configuration compiled, the run returns
success; a surviving record whose insert fails is logged and only that
record is missing, while every surviving record whose insert succeeds
is persisted. -/
theorem c10_insert_failure_skips_row {Row : Type} (ext : RunDeps Row)
    (args : Args) (cfg : FilterConfig) (rows : List Row)
    (hopen : ext.inputOpen = Except.ok ())
    (hc : compileConfig ext.wktParse ext.regexCompile args = Except.ok cfg) :
    (ebirdMain ext args rows).exit = Except.ok ()
  ∧ (ebirdMain ext args rows).inserted =
      (survivors ext.dist ext.decode cfg rows).filter (fun r => ext.insertOk r)
  ∧ (∀ r, r ∈ survivors ext.dist ext.decode cfg rows → ext.insertOk r = false →
        r ∉ (ebirdMain ext args rows).inserted
      ∧ "could not insert record" ∈ (ebirdMain ext args rows).logs)
  ∧ (∀ r, r ∈ survivors ext.dist ext.decode cfg rows → ext.insertOk r = true →
        r ∈ (ebirdMain ext args rows).inserted) := by
  have hm : ebirdMain ext args rows =
      ⟨Except.ok (),
        (survivors ext.dist ext.decode cfg rows).filter (fun r => ext.insertOk r),
        insertFailureLogs ext.insertOk (survivors ext.dist ext.decode cfg rows) ++
          commitLogs ext.commitOk⟩ := by
    unfold ebirdMain
    rw [hopen, hc]
  rw [hm]
  refine ⟨rfl, rfl, ?_, ?_⟩
  · intro r hrs hins
    constructor
    · intro hmem
      have := (List.mem_filter.mp hmem).2
      rw [hins] at this
      exact Bool.false_ne_true this
    · apply List.mem_append_left
      unfold insertFailureLogs
      exact List.mem_map_of_mem _
        (List.mem_filter.mpr ⟨hrs, by rw [hins]; rfl⟩)
  · intro r hrs hins
    exact List.mem_filter.mpr ⟨hrs, hins⟩

/-- Run dependencies over pre-decoded rows where the insert of every
record but the one with guid "g1" fails, and the commit succeeds. -/
def depsInsertFail : RunDeps (Option EBirdRecord) :=
  ⟨noWkt, noRegex, idDecode, zeroDist, .ok (), fun r => r.guid == "g1", true⟩

/-- Witness for C10: with two surviving rows of which one insert fails,
the run exits successfully, keeps exactly the insertable row, logs the
failure and drops only the failing row. -/
theorem c10_insert_failure_witness :
    (ebirdMain depsInsertFail argsNone [some sampleRecord, some sampleRecord2]).exit =
      Except.ok ()
  ∧ (ebirdMain depsInsertFail argsNone [some sampleRecord, some sampleRecord2]).inserted =
      (survivors depsInsertFail.dist depsInsertFail.decode defaultCfg
        [some sampleRecord, some sampleRecord2]).filter (fun r => depsInsertFail.insertOk r)
  ∧ (∀ r, r ∈ survivors depsInsertFail.dist depsInsertFail.decode defaultCfg
        [some sampleRecord, some sampleRecord2] → depsInsertFail.insertOk r = false →
        r ∉ (ebirdMain depsInsertFail argsNone [some sampleRecord, some sampleRecord2]).inserted
      ∧ "could not insert record" ∈
          (ebirdMain depsInsertFail argsNone [some sampleRecord, some sampleRecord2]).logs)
  ∧ (∀ r, r ∈ survivors depsInsertFail.dist depsInsertFail.decode defaultCfg
        [some sampleRecord, some sampleRecord2] → depsInsertFail.insertOk r = true →
        r ∈ (ebirdMain depsInsertFail argsNone [some sampleRecord, some sampleRecord2]).inserted) :=
  c10_insert_failure_skips_row depsInsertFail argsNone defaultCfg
    [some sampleRecord, some sampleRecord2] rfl rfl
